import Mathlib

/-!
Shallow embedding of the Pokemon card-flip application.

Sources embedded:
* `src/js/pokemon.js` — the fetch service: `fetchRandomPokemon`,
  `fetchMultipleRandomPokemon`, `processPokemonData`, `findStat`,
  `capitalizeFirstLetter`.
* `src/unnamed/part_000` — the card controller: `initApp`,
  `createCardElements`, `fetchAndAssignPokemon`, `assignPokemonToCard`,
  `handleCardClick`.

Modelling conventions:
* JavaScript `null`/`undefined` are both modelled as `Option.none`; a JS
  value that may be null is an `Option`.
* The JS truthiness operator `x || y` on strings is `jsOrString` (falsy
  strings are `null`, `undefined` and `""`); on numbers it is captured by
  `jsNumOrZero` (falsy number relevant here is `0`).
* A remote lookup's nondeterminism (random id, network, server) is
  abstracted into a `FetchOutcome` per request: the transport either fails
  outright or yields a status code and a parsed body (`none` = body that is
  not valid JSON / not an object).  Code that can throw is embedded in
  `Except JsError`; a `try { } catch { }` block is a `match` on that
  `Except`.
* `Promise.all` completes its promises in an arbitrary order but places
  each result at the index of its request.  `promiseAllJoin` makes the
  completion order an explicit parameter (a permutation of the request
  indices) filling an indexed buffer, so that order-independence is a
  provable statement rather than an assumption.
* DOM state relevant to the claims is projected onto `CardState`
  (the `flipped` CSS class and the `dataset.pokemon` attribute of a card
  element) and `AppState` (spinner visibility, grid visibility, the
  module-level `cards` array).  Purely presentational DOM writes
  (innerHTML, styles, image sources) have no observable state here.
-/

/-- `TOTAL_POKEMON` from `src/js/pokemon.js`. -/
def TOTAL_POKEMON : Nat := 1008

/-- Errors a JS execution of the embedded code can throw. -/
inductive JsError where
  /-- `TypeError` from reading a property of `undefined`. -/
  | typeError
  /-- `new Error("HTTP error! status: ...")` thrown on `!response.ok`. -/
  | httpError (status : Nat)
  /-- rejection of `fetch` itself (network unreachable). -/
  | transportError
  /-- rejection of `response.json()` (body not valid JSON). -/
  | parseError
deriving DecidableEq, Repr

/-- JS `x || y` for string-or-null values: `x` unless `x` is falsy
(`null`, `undefined` or the empty string). -/
def jsOrString (x y : Option String) : Option String :=
  match x with
  | some s => if s = "" then y else some s
  | none => y

/-- JS `x || 0` for a number-or-undefined value (`0` and `undefined` are
falsy). -/
def jsNumOrZero (x : Option Int) : Int :=
  match x with
  | some v => if v = 0 then 0 else v
  | none => 0

/-- The character map applied by the global hyphen-to-space `replace`
call of `capitalizeFirstLetter`. -/
def hyphenToSpace (c : Char) : Char :=
  if c = '-' then ' ' else c

/-- `capitalizeFirstLetter` (src/js/pokemon.js:109-112): replace every
hyphen by a space, then concatenate the uppercased first character with
the rest (`charAt(0)` of an empty string is `""`, `slice(1)` of an empty
string is `""`, so the empty string maps to itself). -/
def capitalizeFirstLetter (string : String) : String :=
  let fixedString : String := ⟨string.data.map hyphenToSpace⟩
  match fixedString.data with
  | [] => ""
  | c :: rest => ⟨c.toUpper :: rest⟩

/-- One entry of the raw `stats` array: `{ base_stat, stat: { name } }`. -/
structure RawStat where
  base_stat : Int
  /-- `stat.name` of the entry. -/
  statName : String
deriving DecidableEq, Repr

/-- `findStat` (src/js/pokemon.js:95-98): first entry whose `stat.name`
matches, then `stat?.base_stat || 0` (optional chaining yields
`undefined` when no entry matched). -/
def findStat (stats : List RawStat) (statName : String) : Int :=
  let stat := stats.find? (fun s => s.statName = statName)
  jsNumOrZero (stat.map (fun s => s.base_stat))

/-- The `sprites` subobject of a raw API response.
`officialArtwork = none` models `sprites.other["official-artwork"]`
being absent (so that reading `.front_default` on it throws);
`officialArtwork = some fd` models the object being present with
`front_default = fd` (`fd = none` is a null/absent URL). -/
structure RawSprites where
  officialArtwork : Option (Option String)
  front_default : Option String
deriving DecidableEq, Repr

/-- One entry of the raw `types` array: `{ type: { name } }`. -/
structure RawType where
  /-- `type.name` of the entry. -/
  typeName : String
deriving DecidableEq, Repr

/-- One entry of the raw `abilities` array: `{ ability: { name } }`. -/
structure RawAbility where
  /-- `ability.name` of the entry. -/
  abilityName : String
deriving DecidableEq, Repr

/-- The raw API response body consumed by `processPokemonData`. -/
structure RawPokemon where
  id : Int
  name : String
  sprites : RawSprites
  types : List RawType
  height : Int
  weight : Int
  abilities : List RawAbility
  stats : List RawStat
  /-- `species.url`. -/
  speciesUrl : String
deriving DecidableEq, Repr

/-- The `stats` field of the processed record. -/
structure ProcessedStats where
  hp : Int
  attack : Int
  defense : Int
  speed : Int
deriving DecidableEq, Repr

/-- The processed record produced by `processPokemonData`. -/
structure Pokemon where
  id : Int
  name : String
  sprite : Option String
  types : List String
  height : ℚ
  weight : ℚ
  abilities : List String
  stats : ProcessedStats
  speciesUrl : String
deriving DecidableEq, Repr

/-- `processPokemonData` (src/js/pokemon.js:67-85).  Reading
`data.sprites.other['official-artwork'].front_default` throws a
`TypeError` when the `official-artwork` object is absent; otherwise the
sprite is that URL `||` the default sprite, and the remaining fields are
mapped as in the source. -/
def processPokemonData (data : RawPokemon) : Except JsError Pokemon :=
  match data.sprites.officialArtwork with
  | none => .error .typeError
  | some officialFront =>
    .ok
      { id := data.id
        name := capitalizeFirstLetter data.name
        sprite := jsOrString officialFront data.sprites.front_default
        types := data.types.map (fun t => t.typeName)
        height := (data.height : ℚ) / 10
        weight := (data.weight : ℚ) / 10
        abilities := data.abilities.map (fun a => capitalizeFirstLetter a.abilityName)
        stats :=
          { hp := findStat data.stats "hp"
            attack := findStat data.stats "attack"
            defense := findStat data.stats "defense"
            speed := findStat data.stats "speed" }
        speciesUrl := data.speciesUrl }

/-- The observable outcome of one remote lookup: the transport either
rejects, or resolves with a status code and a body (`none` = body whose
JSON parse fails). -/
inductive FetchOutcome where
  | transportError
  | response (status : Nat) (body : Option RawPokemon)
deriving DecidableEq, Repr

/-- `response.ok` of the fetch API: status in the range 200-299. -/
def responseOk (status : Nat) : Bool :=
  200 ≤ status && status ≤ 299

/-- The body of the `try` block of `fetchRandomPokemon`
(src/js/pokemon.js:20-34): throw on transport failure, throw
`httpError` on `!response.ok`, throw `parseError` on an unparseable
body, otherwise process the data (which may itself throw). -/
def fetchRandomPokemonTry (o : FetchOutcome) : Except JsError Pokemon :=
  match o with
  | .transportError => .error .transportError
  | .response status body =>
    if responseOk status then
      match body with
      | none => .error .parseError
      | some data => processPokemonData data
    else
      .error (.httpError status)

/-- `fetchRandomPokemon` (src/js/pokemon.js:20-34): the catch-all
`catch` converts every thrown error into a resolved `null`. -/
def fetchRandomPokemon (o : FetchOutcome) : Option Pokemon :=
  match fetchRandomPokemonTry o with
  | .ok p => some p
  | .error _ => none

/-- `fetchMultipleRandomPokemon` (src/js/pokemon.js:45-57): build one
promise per index `0..count-1` and `Promise.all` them; since each
`fetchRandomPokemon` promise resolves (never rejects), the batch
resolves with the per-index results in request order.  `outcomes i` is
the outcome of the lookup issued by request `i`. -/
def fetchMultipleRandomPokemon (count : Nat) (outcomes : Nat → FetchOutcome) :
    List (Option Pokemon) :=
  (List.range count).map (fun i => fetchRandomPokemon (outcomes i))

/-- Semantics of `Promise.all`'s fan-in with an explicit completion
order: starting from an unfilled buffer of length `count`, the promises
complete in the order listed in `order`, each writing its result at the
index of its request.  `none` in the buffer marks a slot whose promise
has not yet completed. -/
def promiseAllJoin (count : Nat) (results : Nat → Option Pokemon)
    (order : List Nat) : List (Option (Option Pokemon)) :=
  order.foldl (fun buf i => buf.set i (some (results i)))
    (List.replicate count none)

/-- `CARD_COUNT` from `src/unnamed/part_000`. -/
def CARD_COUNT : Nat := 12

/-- `DEBUG_SHOW_SPINNER` from `src/unnamed/part_000`; together with
`LOADING_DELAY` it only delays the bindings (a timing effect with no
bearing on the resulting state), so it does not appear in the state
transitions below. -/
def DEBUG_SHOW_SPINNER : Bool := true

/-- `LOADING_DELAY` from `src/unnamed/part_000`, in milliseconds. -/
def LOADING_DELAY : Nat := 4000

/-- The state of one card element that the claims observe: whether its
class list contains `flipped` (the revealed flag) and the value of its
`dataset.pokemon` attribute (the bound entity, `none` until a
successful assignment). -/
structure CardState where
  flipped : Bool
  datasetPokemon : Option Pokemon
deriving DecidableEq, Repr

/-- A freshly created card element (`createCardElement`): no `flipped`
class, no `dataset.pokemon`. -/
def freshCard : CardState :=
  { flipped := false, datasetPokemon := none }

/-- `createCardElements` (src/unnamed/part_000:43-52): empty the grid
and push `CARD_COUNT` fresh cards. -/
def createCardElements : List CardState :=
  List.replicate CARD_COUNT freshCard

/-- `assignPokemonToCard` (src/unnamed/part_000:116-156) restricted to
its observable state effect: with a falsy `pokemon` it returns before
writing anything; otherwise it stores the record in `dataset.pokemon`
and rebuilds the card's back face (presentation only).  It never
touches the `flipped` class.  The `!card` half of the guard cannot fire
in this model: every caller passes an element of the `cards` array. -/
def assignPokemonToCard (card : CardState) (pokemon : Option Pokemon) :
    CardState :=
  match pokemon with
  | none => card
  | some p => { card with datasetPokemon := some p }

/-- `fetchAndAssignPokemon` (src/unnamed/part_000:95-107): fetch
`CARD_COUNT` pokemon, then assign `pokemonList[i]` to `cards[i]` for
every index of the `cards` array (an index beyond the fetched list
reads `undefined`, which the assignment guard turns into a no-op). -/
def fetchAndAssignPokemon (cards : List CardState)
    (outcomes : Nat → FetchOutcome) : List CardState :=
  let pokemonList := fetchMultipleRandomPokemon CARD_COUNT outcomes
  cards.mapIdx (fun i card =>
    assignPokemonToCard card ((pokemonList.get? i).getD none))

/-- The application state the claims observe: visibility of the loading
spinner, visibility of the card grid (the `hidden` class), and the
module-level `cards` array. -/
structure AppState where
  loadingVisible : Bool
  gridHidden : Bool
  cards : List CardState
deriving DecidableEq, Repr

/-- `initApp` (src/unnamed/part_000:27-35): show the spinner, hide the
grid, create the cards, fetch and assign, install the click listener
(no state effect here), hide the spinner, reveal the grid. -/
def initApp (outcomes : Nat → FetchOutcome) : AppState :=
  let afterShow : AppState :=
    { loadingVisible := true, gridHidden := true, cards := createCardElements }
  let afterAssign : AppState :=
    { afterShow with cards := fetchAndAssignPokemon afterShow.cards outcomes }
  { afterAssign with loadingVisible := false, gridHidden := false }

/-- The ancestor chain of a click target, innermost first.  Each entry
is `some i` when that element has the `card` class and is `cards[i]`
(cards are the only elements carrying the `card` class, and each sits
in the grid at its index), `none` when it lacks the class. -/
def AncestorChain : Type := List (Option Nat)

/-- The `while` loop of `handleCardClick`: walk up the chain until an
element with the `card` class is found; `none` when the chain is
exhausted first. -/
def findCardAncestor : List (Option Nat) → Option Nat
  | [] => none
  | none :: rest => findCardAncestor rest
  | some i :: _ => some i

/-- `handleCardClick` (src/unnamed/part_000:164-171): resolve the card
from the ancestor chain; if none is found return without touching
anything, otherwise toggle that card's `flipped` class.  (The resolved
index is always in range in the DOM — the found element is one of the
cards — so the `cards.get? i = none` branch is unreachable there and
kept only for totality.) -/
def handleCardClick (cards : List CardState) (chain : List (Option Nat)) :
    List CardState :=
  match findCardAncestor chain with
  | none => cards
  | some i =>
    match cards[i]? with
    | none => cards
    | some c => cards.set i { c with flipped := !c.flipped }

/-- A concrete outcome assignment used to instantiate the batch
theorems: request 0 fails in transport, every other request resolves
with status 200 and the body `rawBothSpritesNull`. -/
def rawBothSpritesNull : RawPokemon :=
  { id := 1
    name := "bulbasaur"
    sprites := { officialArtwork := some none, front_default := none }
    types := [{ typeName := "grass" }]
    height := 7
    weight := 69
    abilities := [{ abilityName := "overgrow" }]
    stats := [{ base_stat := 45, statName := "hp" }]
    speciesUrl := "https://pokeapi.co/api/v2/pokemon-species/1/" }

/-- Outcomes where request 0 fails and all later requests succeed. -/
def exOutcomes : Nat → FetchOutcome := fun i =>
  if i = 0 then .transportError else .response 200 (some rawBothSpritesNull)

/-- The sprite of the processed record, `none` when processing threw. -/
def processedSprite (data : RawPokemon) : Option (Option String) :=
  match processPokemonData data with
  | .ok p => some p.sprite
  | .error _ => none

lemma jsNumOrZero_some (v : Int) : jsNumOrZero (some v) = v := by
  unfold jsNumOrZero
  by_cases h : v = 0 <;> simp [h]

lemma fetchMultiple_getElem (count : Nat) (outcomes : Nat → FetchOutcome)
    (i : Nat) (h : i < count) :
    (fetchMultipleRandomPokemon count outcomes)[i]? =
      some (fetchRandomPokemon (outcomes i)) := by
  unfold fetchMultipleRandomPokemon
  rw [List.getElem?_map, List.getElem?_range h]
  rfl

/-- C10: `capitalizeFirstLetter` on the empty string returns the empty
string (and, being a total function of the embedding, raises no error):
`charAt(0)` and `slice(1)` are both total on `""` in JS and the
embedding mirrors that. -/
theorem capitalizeFirstLetter_empty : capitalizeFirstLetter "" = "" := rfl

/-- C5: `capitalizeFirstLetter` replaces every hyphen by a space and
uppercases only the first character of the result: the head of the
output is the uppercased hyphen-replaced head of the input and the tail
of the output is the hyphen-replaced tail of the input, unchanged
otherwise; in particular `"ice-cream" ↦ "Ice cream"` and
`"fire" ↦ "Fire"`. -/
theorem capitalizeFirstLetter_spec :
    capitalizeFirstLetter "ice-cream" = "Ice cream" ∧
    capitalizeFirstLetter "fire" = "Fire" ∧
    (∀ s : String,
      (capitalizeFirstLetter s).data.head? =
        s.data.head?.map (fun c => (hyphenToSpace c).toUpper) ∧
      (capitalizeFirstLetter s).data.tail =
        s.data.tail.map hyphenToSpace) := by
  refine ⟨by decide, by decide, ?_⟩
  intro s
  obtain ⟨data⟩ := s
  cases data with
  | nil => exact ⟨rfl, rfl⟩
  | cons c rest => exact ⟨rfl, rfl⟩

/-- C6: `findStat` returns the `base_stat` of a matching entry and `0`
when no entry matches; in particular a list without a `"speed"` entry
gives `0` and `[{name := "speed", base_stat := 90}]` gives `90`. -/
theorem findStat_spec :
    (∀ stats statName, (∀ s ∈ stats, s.statName ≠ statName) →
      findStat stats statName = 0) ∧
    (∀ stats statName, (∃ s ∈ stats, s.statName = statName) →
      ∃ s ∈ stats, s.statName = statName ∧
        findStat stats statName = s.base_stat) ∧
    findStat [{ base_stat := 45, statName := "hp" },
              { base_stat := 49, statName := "attack" }] "speed" = 0 ∧
    findStat [{ base_stat := 90, statName := "speed" }] "speed" = 90 := by
  refine ⟨?_, ?_, by decide, by decide⟩
  · intro stats statName h
    unfold findStat
    have hfind : stats.find? (fun s => s.statName = statName) = none := by
      rw [List.find?_eq_none]
      intro x hx
      simpa using h x hx
    rw [hfind]
    rfl
  · intro stats statName h
    cases hfind : stats.find? (fun s => s.statName = statName) with
    | none =>
      rw [List.find?_eq_none] at hfind
      obtain ⟨s, hs, heq⟩ := h
      exact absurd (by simpa using heq) (hfind s hs)
    | some s =>
      refine ⟨s, List.mem_of_find?_eq_some hfind, ?_, ?_⟩
      · simpa using List.find?_some hfind
      · unfold findStat
        rw [hfind]
        exact jsNumOrZero_some s.base_stat

/-- C2: for every count `N ≥ 0`, the batch fetch resolves — the
embedding is a total function because each single fetch swallows every
error — with a list of length exactly `N`. -/
theorem fetchMultipleRandomPokemon_length (count : Nat)
    (outcomes : Nat → FetchOutcome) :
    (fetchMultipleRandomPokemon count outcomes).length = count := by
  unfold fetchMultipleRandomPokemon
  rw [List.length_map, List.length_range]

/-- C1 counterexample: on a record where both
`sprites.other["official-artwork"].front_default` and
`sprites.front_default` are null, the normalization succeeds but the
sprite field is null (`none`), not the empty string the claim
requires. -/
theorem sprite_both_null_not_empty_string :
    processedSprite rawBothSpritesNull ≠ some (some "") ∧
    processedSprite rawBothSpritesNull = some none := by
  exact ⟨by decide, rfl⟩

/-- C1 amended: provided the `official-artwork` object is present,
normalization succeeds; the sprite equals its `front_default` whenever
that URL is non-null and non-empty, and falls back to
`sprites.front_default` — whatever that is, null included — when it is
null or empty; with both null the sprite is null, not `""`. -/
theorem sprite_selection_amended (data : RawPokemon) (fd : Option String)
    (hart : data.sprites.officialArtwork = some fd) :
    (processPokemonData data).isOk = true ∧
    (∀ s, fd = some s → s ≠ "" → processedSprite data = some (some s)) ∧
    (fd = none ∨ fd = some "" →
      processedSprite data = some data.sprites.front_default) := by
  refine ⟨?_, ?_, ?_⟩
  · unfold processPokemonData
    rw [hart]
    rfl
  · intro s hs hne
    subst hs
    unfold processedSprite processPokemonData
    rw [hart]
    simp [jsOrString, hne]
  · intro hcase
    unfold processedSprite processPokemonData
    rw [hart]
    rcases hcase with h | h <;> subst h <;> simp [jsOrString]

/-- Instantiation of the amended C1 statement on the concrete record
with both sprite URLs null: processing succeeds and the sprite is the
(null) default sprite. -/
theorem sprite_selection_amended_witness :
    (processPokemonData rawBothSpritesNull).isOk = true ∧
    processedSprite rawBothSpritesNull =
      some rawBothSpritesNull.sprites.front_default := by
  have h := sprite_selection_amended rawBothSpritesNull none rfl
  exact ⟨h.1, h.2.2 (Or.inl rfl)⟩

/-- C3: every failure kind of a single lookup — transport failure,
non-2xx status, unparseable body, body missing the required
`official-artwork` field — is caught inside `fetchRandomPokemon` and
becomes `null`; in the batch, a failed request `i` yields `null` at
exactly position `i` while every other position `j` still holds the
result of its own request `j`, and the batch still resolves. -/
theorem batch_failure_isolation :
    fetchRandomPokemon .transportError = none ∧
    (∀ status body, responseOk status = false →
      fetchRandomPokemon (.response status body) = none) ∧
    (∀ status, responseOk status = true →
      fetchRandomPokemon (.response status none) = none) ∧
    (∀ status data, responseOk status = true →
      data.sprites.officialArtwork = none →
      fetchRandomPokemon (.response status (some data)) = none) ∧
    (∀ count (outcomes : Nat → FetchOutcome) i, i < count →
      fetchRandomPokemon (outcomes i) = none →
      (fetchMultipleRandomPokemon count outcomes)[i]? = some none ∧
      ∀ j, j < count → j ≠ i →
        (fetchMultipleRandomPokemon count outcomes)[j]? =
          some (fetchRandomPokemon (outcomes j))) := by
  refine ⟨rfl, ?_, ?_, ?_, ?_⟩
  · intro status body h
    simp [fetchRandomPokemon, fetchRandomPokemonTry, h]
  · intro status h
    simp [fetchRandomPokemon, fetchRandomPokemonTry, h]
  · intro status data h hart
    simp [fetchRandomPokemon, fetchRandomPokemonTry, processPokemonData, h, hart]
  · intro count outcomes i hi hfail
    refine ⟨?_, ?_⟩
    · rw [fetchMultiple_getElem count outcomes i hi, hfail]
    · intro j hj _
      exact fetchMultiple_getElem count outcomes j hj

/-- Instantiation of C3 on a two-request batch where request 0 fails in
transport: slot 0 is null and slot 1 holds the result of request 1. -/
theorem batch_failure_isolation_witness :
    (fetchMultipleRandomPokemon 2 exOutcomes)[0]? = some none ∧
    (fetchMultipleRandomPokemon 2 exOutcomes)[1]? =
      some (fetchRandomPokemon (exOutcomes 1)) := by
  have h := batch_failure_isolation.2.2.2.2 2 exOutcomes 0 (by decide) rfl
  exact ⟨h.1, h.2 1 (by decide) (by decide)⟩

lemma promiseAllJoin_fill_length (results : Nat → Option Pokemon)
    (order : List Nat) (buf : List (Option (Option Pokemon))) :
    (order.foldl (fun b j => b.set j (some (results j))) buf).length =
      buf.length := by
  induction order generalizing buf with
  | nil => rfl
  | cons hd tl ih => rw [List.foldl_cons, ih, List.length_set]

lemma promiseAllJoin_fill_not_mem (results : Nat → Option Pokemon)
    (order : List Nat) (buf : List (Option (Option Pokemon))) (i : Nat)
    (h : i ∉ order) :
    (order.foldl (fun b j => b.set j (some (results j))) buf)[i]? =
      buf[i]? := by
  induction order generalizing buf with
  | nil => rfl
  | cons hd tl ih =>
    rw [List.foldl_cons, ih _ (fun hmem => h (List.mem_cons_of_mem hd hmem))]
    exact List.getElem?_set_ne
      (fun heq => h (by rw [← heq]; exact List.mem_cons_self hd tl))

lemma promiseAllJoin_fill_mem (results : Nat → Option Pokemon)
    (order : List Nat) (buf : List (Option (Option Pokemon))) (i : Nat)
    (h : i ∈ order) (hlen : i < buf.length) :
    (order.foldl (fun b j => b.set j (some (results j))) buf)[i]? =
      some (some (results i)) := by
  induction order generalizing buf with
  | nil => cases h
  | cons hd tl ih =>
    rw [List.foldl_cons]
    by_cases hmem : i ∈ tl
    · exact ih _ hmem (by rw [List.length_set]; exact hlen)
    · have hhd : i = hd := by
        rcases List.mem_cons.mp h with h1 | h1
        · exact h1
        · exact absurd h1 hmem
      subst hhd
      rw [promiseAllJoin_fill_not_mem results tl _ i hmem]
      exact List.getElem?_set_self hlen

/-- C4: whatever the completion order of the `count` independent
lookups — any permutation of the request indices — the joined buffer is
exactly the request-ordered result list: position `i` holds the result
of request `i` for every `i < count`. -/
theorem promiseAll_order_independent (count : Nat)
    (outcomes : Nat → FetchOutcome) (order : List Nat)
    (horder : order.Perm (List.range count)) :
    promiseAllJoin count (fun j => fetchRandomPokemon (outcomes j)) order =
      (fetchMultipleRandomPokemon count outcomes).map some ∧
    ∀ i, i < count →
      (fetchMultipleRandomPokemon count outcomes)[i]? =
        some (fetchRandomPokemon (outcomes i)) := by
  constructor
  · apply List.ext_getElem?
    intro n
    by_cases hn : n < count
    · have hmem : n ∈ order := horder.mem_iff.mpr (List.mem_range.mpr hn)
      unfold promiseAllJoin
      rw [promiseAllJoin_fill_mem _ order _ n hmem (by simpa using hn)]
      rw [List.getElem?_map, fetchMultiple_getElem count outcomes n hn]
      rfl
    · push_neg at hn
      unfold promiseAllJoin
      rw [List.getElem?_eq_none, List.getElem?_eq_none]
      · rw [List.length_map]
        unfold fetchMultipleRandomPokemon
        rw [List.length_map, List.length_range]
        exact hn
      · rw [promiseAllJoin_fill_length, List.length_replicate]
        exact hn
  · intro i hi
    exact fetchMultiple_getElem count outcomes i hi

/-- Instantiation of C4: a two-request batch whose promises complete in
reverse order still yields the request-ordered list. -/
theorem promiseAll_order_independent_witness :
    promiseAllJoin 2 (fun j => fetchRandomPokemon (exOutcomes j)) [1, 0] =
      (fetchMultipleRandomPokemon 2 exOutcomes).map some :=
  (promiseAll_order_independent 2 exOutcomes [1, 0] (by decide)).1

lemma list_set_getElem_self {α : Type} (l : List α) (i : Nat)
    (h : i < l.length) : l.set i l[i] = l := by
  apply List.ext_getElem?
  intro n
  rw [List.getElem?_set]
  by_cases hin : i = n
  · subst hin
    simp [h, List.getElem?_eq_getElem h]
  · simp [hin]

/-- C7: when the ancestor chain of the click target contains no element
with the `card` class, the click handler raises no error and leaves
every slot unchanged; when it resolves to card `i`, clicking twice
restores the whole card array — in particular slot `i`'s revealed flag
— to its original value. -/
theorem toggle_twice_id (cards : List CardState)
    (chain : List (Option Nat)) :
    (findCardAncestor chain = none → handleCardClick cards chain = cards) ∧
    (∀ i, findCardAncestor chain = some i → i < cards.length →
      handleCardClick (handleCardClick cards chain) chain = cards) := by
  constructor
  · intro h
    simp only [handleCardClick, h]
  · intro i hfind hi
    have hget : cards[i]? = some cards[i] := List.getElem?_eq_getElem hi
    have hset : (cards.set i
        { cards[i] with flipped := !(cards[i].flipped) })[i]? =
        some { cards[i] with flipped := !(cards[i].flipped) } :=
      List.getElem?_set_self hi
    simp only [handleCardClick, hfind, hget, hset]
    rw [List.set_set, Bool.not_not]
    exact list_set_getElem_self cards i hi

/-- Instantiation of C7: a single-card grid; a double click through a
chain resolving to card 0 restores the state, and a click whose chain
has no card element changes nothing. -/
theorem toggle_twice_id_witness :
    handleCardClick (handleCardClick [freshCard] [none, some 0])
        [none, some 0] = [freshCard] ∧
    handleCardClick [freshCard] [none] = [freshCard] := by
  constructor
  · exact (toggle_twice_id [freshCard] [none, some 0]).2 0 rfl (by decide)
  · exact (toggle_twice_id [freshCard] [none]).1 rfl

/-- C8: initialization over a batch in which every lookup fails (here:
transport failure on all twelve requests, so every batch slot is null)
still ends with the spinner hidden and the grid revealed, and all 12
cards stay unbound and unrevealed. -/
theorem all_null_batch_still_populates :
    fetchMultipleRandomPokemon CARD_COUNT (fun _ => .transportError) =
      List.replicate 12 none ∧
    initApp (fun _ => .transportError) =
      { loadingVisible := false
        gridHidden := false
        cards := List.replicate 12 freshCard } := by
  exact ⟨rfl, rfl⟩

/-- C9: binding an entity never touches the revealed flag, and the
click toggle never touches the bound entity: for every card and every
candidate record the assignment preserves `flipped`, and for every card
array, every chain and every position the click handler preserves
`dataset.pokemon`. -/
theorem reveal_bound_independence :
    (∀ card pokemon,
      (assignPokemonToCard card pokemon).flipped = card.flipped) ∧
    (∀ (cards : List CardState) (chain : List (Option Nat)) (j : Nat),
      ((handleCardClick cards chain)[j]?).map CardState.datasetPokemon =
        (cards[j]?).map CardState.datasetPokemon) := by
  constructor
  · intro card pokemon
    cases pokemon <;> rfl
  · intro cards chain j
    cases hfind : findCardAncestor chain with
    | none => simp only [handleCardClick, hfind]
    | some i =>
      cases hget : cards[i]? with
      | none => simp only [handleCardClick, hfind, hget]
      | some c =>
        have hi : i < cards.length := by
          rw [List.getElem?_eq_some_iff] at hget
          exact hget.1
        simp only [handleCardClick, hfind, hget]
        by_cases hij : i = j
        · subst hij
          rw [List.getElem?_set_self hi, hget]
          rfl
        · rw [List.getElem?_set_ne hij]

/-- Instantiation of C6: a stats list with no `"hp"` entry yields 0 and
a singleton matching list yields its `base_stat`. -/
theorem findStat_spec_witness :
    findStat [{ base_stat := 90, statName := "speed" }] "hp" = 0 :=
  findStat_spec.1 [{ base_stat := 90, statName := "speed" }] "hp" (by decide)
